import Mathlib

/-!
Shallow embedding of the scene segmentation, selection and render pipeline of
make_shorts_cli.py, together with proofs of its specified properties.

External process boundaries (ffprobe, the scene detector, ffmpeg) are modelled
as explicit parameters: the probe's raw outcome, the float() builtin, and the
encoder's exit status and captured stderr are inputs of the Lean functions.
Python floats are modelled as rationals and Python ints as integers.
-/

namespace VideoClipper

/-- A scene interval, a pair of start and end timestamps in seconds.
The source manipulates Python floats; they are modelled as rationals. -/
abbrev Scene : Type := ℚ × ℚ

/-- Truncation toward zero: the behaviour of the Python builtin int() applied
to a float. -/
def pyInt (q : ℚ) : ℤ := if 0 ≤ q then ⌊q⌋ else ⌈q⌉

/-- Ways the external ffprobe invocation inside the try block of
get_video_length_seconds can raise before producing output text: missing
binary, unreadable input file, or a non-zero process exit. -/
inductive ProbeError : Type where
  | missingBinary : ProbeError
  | unreadableFile : ProbeError
  | processFailed : ProbeError
deriving DecidableEq

/-- Model of get_video_length_seconds: the try block runs the external probe
(whose outcome is the raw parameter), decodes and strips its output, then
parses it with the float() builtin (modelled by the parse parameter, none
standing for a ValueError on malformed text). Any exception is caught by the
bare except clause, which returns 0.0. -/
def get_video_length_seconds (raw : Except ProbeError String)
    (parse : String → Option ℚ) : ℚ :=
  match raw with
  | .error _ => 0
  | .ok out =>
    match parse out.trim with
    | none => 0
    | some v => v

/-- Model of make_sequential_scenes: total = int(get_video_length_seconds(..)),
starts = [i * clip_len for i in range(n)], and each scene is
(s, min(s + clip_len, total)). n and clip_len are Python ints supplied by the
caller; range(n) is empty when n ≤ 0. -/
def make_sequential_scenes (raw : Except ProbeError String)
    (parse : String → Option ℚ) (n clip_len : ℤ) : List Scene :=
  let total : ℤ := pyInt (get_video_length_seconds raw parse)
  let starts : List ℤ := (List.range n.toNat).map (fun i : ℕ => (i : ℤ) * clip_len)
  starts.map (fun s =>
    let e : ℤ := min (s + clip_len) total
    ((s : ℚ), (e : ℚ)))

/-- The sort key of pick_top_scenes: lambda s: (s[1] - s[0]). -/
def scene_len (s : Scene) : ℚ := s.2 - s.1

/-- The ordering used by sorted(scenes, key=lambda s: s[1]-s[0], reverse=True):
a comes no later than b exactly when a's length is at least b's length.
Python's sorted is a stable sort for this total preorder; stable sorting is
modelled by insertion sort, which computes the same (unique) stably sorted
permutation. -/
def desc_r (a b : Scene) : Prop := scene_len b ≤ scene_len a

instance : DecidableRel desc_r :=
  fun a b => inferInstanceAs (Decidable (scene_len b ≤ scene_len a))

instance : IsTotal Scene desc_r :=
  ⟨fun a b => le_total (scene_len b) (scene_len a)⟩

instance : IsTrans Scene desc_r :=
  ⟨fun _ _ _ h₁ h₂ => le_trans h₂ h₁⟩

/-- Python list slicing l[:n] for an arbitrary int n: a non-negative n keeps
the first n elements (clamped to the length); a negative n drops the last
(-n) elements (clamped to the empty list). -/
def pySlice {α : Type _} (l : List α) (n : ℤ) : List α :=
  if 0 ≤ n then l.take n.toNat else l.take (l.length - (-n).toNat)

/-- Model of pick_top_scenes: empty input short-circuits to []; otherwise the
scenes are stably sorted by descending length and sliced to the first n. -/
def pick_top_scenes (scenes : List Scene) (n : ℤ) : List Scene :=
  if scenes.isEmpty then []
  else pySlice (scenes.insertionSort desc_r) n

/-- One render job of the main loop: create_short(video, int(sstart),
short_dur, out) with out the numbered destination path. -/
structure RenderJob where
  input_path : String
  start : ℤ
  duration : ℤ
  out_path : String
deriving DecidableEq

/-- Outcome of one external ffmpeg invocation: its exit status and its
captured standard-error text (subprocess.run with stderr=PIPE). -/
structure EncoderResult where
  returncode : ℤ
  stderr : String
deriving DecidableEq

/-- The fault raised by create_short on a non-zero encoder exit: the
CalledProcessError carries the exit status, and the captured stderr has been
surfaced to the operator. -/
structure RenderFault where
  returncode : ℤ
  stderr : String
deriving DecidableEq

/-- Model of create_short: run the encoder (an explicit parameter standing for
the external ffmpeg process); a non-zero returncode surfaces the captured
stderr and raises, a zero returncode returns normally. -/
def create_short (encoder : RenderJob → EncoderResult) (job : RenderJob) :
    Except RenderFault Unit :=
  let proc := encoder job
  if proc.returncode ≠ 0 then Except.error ⟨proc.returncode, proc.stderr⟩
  else Except.ok ()

/-- Model of the main render loop: jobs run sequentially; each successful job
appends its output file to the disk; the first raising job propagates its
fault out of the loop (there is no try around create_short), leaving the
files written so far on disk and the remaining jobs unexecuted. -/
def run_render_loop (encoder : RenderJob → EncoderResult) :
    List RenderJob → List String → Except (RenderFault × List String) (List String)
  | [], disk => Except.ok disk
  | job :: rest, disk =>
    match create_short encoder job with
    | .error f => Except.error (f, disk)
    | .ok _ => run_render_loop encoder rest (disk ++ [job.out_path])

/-- Zero-padding of the Python format spec 02d for a positive index. -/
def pad2 (k : ℕ) : String := if k < 10 then "0" ++ toString k else toString k

/-- Destination file name of the i-th (0-based) selected scene:
short_{i+1:02d}.mp4. -/
def short_out_name (i : ℕ) : String := "short_" ++ pad2 (i + 1) ++ ".mp4"

/-- Model of the render-job construction in the main loop: for each selected
scene (sstart, send), start = int(sstart) and the duration is the
user-supplied short_dur, regardless of send. -/
def build_render_jobs (video : String) (chosen : List Scene) (short_dur : ℤ) :
    List RenderJob :=
  chosen.enum.map (fun p =>
    { input_path := video, start := pyInt p.2.1, duration := short_dur,
      out_path := short_out_name p.1 })

/-! ## Helper lemmas -/

theorem pySlice_nonneg {α : Type _} (l : List α) (n : ℤ) (h : 0 ≤ n) :
    pySlice l n = l.take n.toNat := by
  simp [pySlice, h]

theorem make_sequential_scenes_eq (raw : Except ProbeError String)
    (parse : String → Option ℚ) (n clip_len : ℤ) :
    make_sequential_scenes raw parse n clip_len =
      (List.range n.toNat).map (fun i : ℕ =>
        ((((i : ℤ) * clip_len : ℤ) : ℚ),
         ((min ((i : ℤ) * clip_len + clip_len)
            (pyInt (get_video_length_seconds raw parse)) : ℤ) : ℚ))) := by
  unfold make_sequential_scenes
  rw [List.map_map]
  rfl

theorem pick_top_nonempty (l : List Scene) (h : ¬ l.isEmpty) (n : ℤ) :
    pick_top_scenes l n = pySlice (l.insertionSort desc_r) n := by
  simp [pick_top_scenes, h]

theorem pick_top_pairwise (scenes : List Scene) (n : ℤ) :
    (pick_top_scenes scenes n).Pairwise desc_r := by
  by_cases h0 : scenes.isEmpty
  · simp [pick_top_scenes, h0]
  · have hs : (scenes.insertionSort desc_r).Pairwise desc_r :=
      List.sorted_insertionSort desc_r scenes
    rw [pick_top_nonempty scenes h0 n]
    unfold pySlice
    split
    · exact List.Pairwise.sublist (List.take_sublist _ _) hs
    · exact List.Pairwise.sublist (List.take_sublist _ _) hs

theorem insertionSort_filter_key (l : List Scene) (c : ℚ) :
    (l.insertionSort desc_r).filter (fun s => decide (scene_len s = c)) =
      l.filter (fun s => decide (scene_len s = c)) := by
  have hall : ∀ a ∈ l.filter (fun s => decide (scene_len s = c)), scene_len a = c := by
    intro a ha
    simpa using (List.mem_filter.mp ha).2
  have hpw : (l.filter (fun s => decide (scene_len s = c))).Pairwise desc_r :=
    List.pairwise_of_forall_mem_list (fun a ha b hb => by
      simp [desc_r, hall a ha, hall b hb])
  have hsub : (l.filter (fun s => decide (scene_len s = c))).Sublist
      (l.insertionSort desc_r) :=
    List.sublist_insertionSort hpw (List.filter_sublist l)
  have hself : (l.filter (fun s => decide (scene_len s = c))).filter
      (fun s => decide (scene_len s = c)) = l.filter (fun s => decide (scene_len s = c)) :=
    List.filter_eq_self.mpr (fun a ha => (List.mem_filter.mp ha).2)
  have hsub2 : (l.filter (fun s => decide (scene_len s = c))).Sublist
      ((l.insertionSort desc_r).filter (fun s => decide (scene_len s = c))) :=
    hself ▸ hsub.filter (fun s => decide (scene_len s = c))
  have hperm : List.Perm
      ((l.insertionSort desc_r).filter (fun s => decide (scene_len s = c)))
      (l.filter (fun s => decide (scene_len s = c))) :=
    (List.perm_insertionSort desc_r l).filter (fun s => decide (scene_len s = c))
  exact (hsub2.eq_of_length hperm.length_eq.symm).symm

/-! ## Claims about the fallback segmenter -/

/-- C1, counterexample: with a failed probe, count 2 and clip length 20, the
code does not return [(0,0),(20,20)] as the spec scenario claims: the second
end is min(20+20, 0) = 0, not 20. -/
theorem fallback_probe_failure_counterexample :
    make_sequential_scenes (Except.error ProbeError.processFailed) (fun _ => none) 2 20 ≠
      [((0 : ℚ), (0 : ℚ)), ((20 : ℚ), (20 : ℚ))] := by
  decide

/-- C1, amended: if the duration probe fails and the fallback segmenter is
called with count 2 and clip length 20, it returns exactly the two intervals
[(0,0),(20,0)] (each end clamped to the zero total), without crashing. -/
theorem fallback_probe_failure_result (e : ProbeError) (parse : String → Option ℚ) :
    make_sequential_scenes (Except.error e) parse 2 20 =
      [((0 : ℚ), (0 : ℚ)), ((20 : ℚ), (0 : ℚ))] := by
  have h : make_sequential_scenes (Except.error e) parse 2 20 =
      make_sequential_scenes (Except.error ProbeError.processFailed) (fun _ => none) 2 20 := rfl
  rw [h]
  decide

/-- C2: for every non-negative count and clip length, the fallback segmenter
produces exactly count intervals, the i-th starting at i * clip_len and ending
at min(start + clip_len, total), where total is the probed duration truncated
to whole seconds. -/
theorem make_sequential_scenes_spec (raw : Except ProbeError String)
    (parse : String → Option ℚ) (n clip_len : ℤ) (hn : 0 ≤ n) (hc : 0 ≤ clip_len) :
    ((make_sequential_scenes raw parse n clip_len).length : ℤ) = n ∧
    ∀ i (h : i < (make_sequential_scenes raw parse n clip_len).length),
      (make_sequential_scenes raw parse n clip_len).get ⟨i, h⟩ =
        ((((i : ℤ) * clip_len : ℤ) : ℚ),
         ((min ((i : ℤ) * clip_len + clip_len)
            (pyInt (get_video_length_seconds raw parse)) : ℤ) : ℚ)) := by
  constructor
  · rw [make_sequential_scenes_eq]
    simp
    omega
  · intro i h
    rw [List.get_of_eq (make_sequential_scenes_eq raw parse n clip_len)]
    simp [List.get_eq_getElem]

/-- C2 witness: scenario B, probe text parsing to 90, count 3, clip length
30. -/
theorem make_sequential_scenes_spec_witness :
    (0 : ℤ) ≤ 3 ∧ (0 : ℤ) ≤ 30 ∧
    (((make_sequential_scenes (Except.ok "90.0") (fun _ => some (90 : ℚ)) 3 30).length : ℤ) = 3 ∧
    ∀ i (h : i < (make_sequential_scenes (Except.ok "90.0") (fun _ => some (90 : ℚ)) 3 30).length),
      (make_sequential_scenes (Except.ok "90.0") (fun _ => some (90 : ℚ)) 3 30).get ⟨i, h⟩ =
        ((((i : ℤ) * 30 : ℤ) : ℚ),
         ((min ((i : ℤ) * 30 + 30)
            (pyInt (get_video_length_seconds (Except.ok "90.0") (fun _ => some (90 : ℚ)))) : ℤ) : ℚ))) :=
  ⟨by decide, by decide,
    make_sequential_scenes_spec (Except.ok "90.0") (fun _ => some (90 : ℚ)) 3 30
      (by decide) (by decide)⟩

/-- C3, counterexample: with clip length 0 (a non-negative value), count 1 and
a probed duration of 5 seconds, the single produced interval is (0,0), so the
claim that start < end whenever the total duration exceeds the start fails. -/
theorem fallback_nondegenerate_counterexample :
    ¬ (∀ s ∈ make_sequential_scenes (Except.ok "5") (fun _ => some (5 : ℚ)) 1 0,
        ((pyInt (get_video_length_seconds (Except.ok "5") (fun _ => some (5 : ℚ))) : ℤ) : ℚ) > s.1 →
          s.1 < s.2) := by
  decide

/-- C3, amended: for every non-negative count and every positive clip length,
every interval produced by the fallback segmenter satisfies start < end
whenever the truncated total duration exceeds the start. -/
theorem fallback_nondegenerate_of_pos_clip (raw : Except ProbeError String)
    (parse : String → Option ℚ) (n clip_len : ℤ) (hn : 0 ≤ n) (hc : 0 < clip_len) :
    ∀ s ∈ make_sequential_scenes raw parse n clip_len,
      ((pyInt (get_video_length_seconds raw parse) : ℤ) : ℚ) > s.1 → s.1 < s.2 := by
  intro s hs hgt
  rw [make_sequential_scenes_eq] at hs
  simp only [List.mem_map, List.mem_range] at hs
  obtain ⟨i, hi, rfl⟩ := hs
  simp only at hgt ⊢
  have h1 : (i : ℤ) * clip_len < pyInt (get_video_length_seconds raw parse) := by
    exact_mod_cast hgt
  have h2 : (i : ℤ) * clip_len <
      min ((i : ℤ) * clip_len + clip_len) (pyInt (get_video_length_seconds raw parse)) :=
    lt_min (by omega) h1
  exact_mod_cast h2

/-- C3 witness: scenario B inputs, count 3, clip length 30, duration 90. -/
theorem fallback_nondegenerate_of_pos_clip_witness :
    (0 : ℤ) ≤ 3 ∧ (0 : ℤ) < 30 ∧
    (∀ s ∈ make_sequential_scenes (Except.ok "90.0") (fun _ => some (90 : ℚ)) 3 30,
      ((pyInt (get_video_length_seconds (Except.ok "90.0") (fun _ => some (90 : ℚ))) : ℤ) : ℚ) > s.1 →
        s.1 < s.2) :=
  ⟨by decide, by decide,
    fallback_nondegenerate_of_pos_clip (Except.ok "90.0") (fun _ => some (90 : ℚ)) 3 30
      (by decide) (by decide)⟩

/-! ## Claims about the scene selector -/

/-- C4, counterexample: the length law fails for a negative n. Python slicing
with n = -1 drops the last element, so the singleton input yields an empty
selection of length 0, while min(-1, 1) = -1. -/
theorem pick_top_length_counterexample :
    ¬ (((pick_top_scenes [((0 : ℚ), (1 : ℚ))] (-1)).length : ℤ) =
        min (-1) (([((0 : ℚ), (1 : ℚ))] : List Scene).length : ℤ)) := by
  decide

/-- C4, amended: for every list of intervals and every non-negative n, the
selection has length min(n, number of input intervals); in particular a large
n returns everything and empty input yields empty output. -/
theorem pick_top_length_eq_min (scenes : List Scene) (n : ℤ) (h : 0 ≤ n) :
    ((pick_top_scenes scenes n).length : ℤ) = min n (scenes.length : ℤ) := by
  by_cases h0 : scenes.isEmpty
  · have he : scenes = [] := List.isEmpty_iff.mp h0
    subst he
    simp [pick_top_scenes]
    omega
  · rw [pick_top_nonempty scenes h0 n, pySlice_nonneg _ _ h, List.length_take,
      List.length_insertionSort]
    omega

/-- C4 witness: three intervals, n = 2. -/
theorem pick_top_length_eq_min_witness :
    (0 : ℤ) ≤ 2 ∧
    ((pick_top_scenes [((0 : ℚ), (10 : ℚ)), ((10 : ℚ), (15 : ℚ)), ((15 : ℚ), (45 : ℚ))] 2).length : ℤ) =
      min 2 (([((0 : ℚ), (10 : ℚ)), ((10 : ℚ), (15 : ℚ)), ((15 : ℚ), (45 : ℚ))] : List Scene).length : ℤ) :=
  ⟨by decide,
    pick_top_length_eq_min [((0 : ℚ), (10 : ℚ)), ((10 : ℚ), (15 : ℚ)), ((15 : ℚ), (45 : ℚ))] 2
      (by decide)⟩

/-- C5: in any selection, lengths are non-increasing along the output: for
positions i < j, the interval at i is at least as long as the one at j. -/
theorem pick_top_sorted_desc (scenes : List Scene) (n : ℤ) :
    (pick_top_scenes scenes n).Pairwise (fun a b => scene_len b ≤ scene_len a) :=
  pick_top_pairwise scenes n

/-- C6: stability of the selection. For every exact length c, the sequence of
selected intervals of length c is an initial segment of the sequence of input
intervals of length c, in input order; hence of two equal-length intervals in
the output, the one earlier in the input comes earlier in the output. -/
theorem pick_top_stable_on_equal_lengths (scenes : List Scene) (n : ℤ) (c : ℚ) :
    (pick_top_scenes scenes n).filter (fun s => decide (scene_len s = c)) <+:
      scenes.filter (fun s => decide (scene_len s = c)) := by
  by_cases h0 : scenes.isEmpty
  · simp [pick_top_scenes, h0]
  · have hkey := insertionSort_filter_key scenes c
    rw [pick_top_nonempty scenes h0 n]
    unfold pySlice
    rw [← hkey]
    split
    · exact (show ((scenes.insertionSort desc_r).take _) <+: scenes.insertionSort desc_r from
        ⟨_, List.take_append_drop _ _⟩).filter _
    · exact (show ((scenes.insertionSort desc_r).take _) <+: scenes.insertionSort desc_r from
        ⟨_, List.take_append_drop _ _⟩).filter _

/-- C7, counterexample: idempotence fails for a negative n. With n = -1 each
application drops the last element of the sorted list, so applying the
selection twice shrinks the result further. -/
theorem pick_top_idem_counterexample :
    pick_top_scenes (pick_top_scenes [((0 : ℚ), (1 : ℚ)), ((0 : ℚ), (2 : ℚ))] (-1)) (-1) ≠
      pick_top_scenes [((0 : ℚ), (1 : ℚ)), ((0 : ℚ), (2 : ℚ))] (-1) := by
  norm_num [pick_top_scenes, pySlice, List.insertionSort, List.orderedInsert, desc_r, scene_len]

/-- C7, amended: for every list of intervals and every non-negative n,
applying the selection to its own output with the same n returns that output
unchanged. -/
theorem pick_top_idem_of_nonneg (scenes : List Scene) (n : ℤ) (h : 0 ≤ n) :
    pick_top_scenes (pick_top_scenes scenes n) n = pick_top_scenes scenes n := by
  by_cases h0 : scenes.isEmpty
  · have he : scenes = [] := List.isEmpty_iff.mp h0
    subst he
    simp [pick_top_scenes]
  · by_cases h1 : (pick_top_scenes scenes n).isEmpty
    · have he : pick_top_scenes scenes n = [] := List.isEmpty_iff.mp h1
      rw [he]
      simp [pick_top_scenes]
    · have hpw : (pick_top_scenes scenes n).Pairwise desc_r := pick_top_pairwise scenes n
      have hlen : (pick_top_scenes scenes n).length ≤ n.toNat := by
        rw [pick_top_nonempty scenes h0 n, pySlice_nonneg _ _ h, List.length_take]
        exact min_le_left _ _
      rw [pick_top_nonempty _ h1 n, List.Sorted.insertionSort_eq hpw,
        pySlice_nonneg _ _ h]
      exact List.take_of_length_le hlen

/-- C7 witness: three intervals, n = 2. -/
theorem pick_top_idem_of_nonneg_witness :
    (0 : ℤ) ≤ 2 ∧
    pick_top_scenes
        (pick_top_scenes [((0 : ℚ), (10 : ℚ)), ((10 : ℚ), (15 : ℚ)), ((15 : ℚ), (45 : ℚ))] 2) 2 =
      pick_top_scenes [((0 : ℚ), (10 : ℚ)), ((10 : ℚ), (15 : ℚ)), ((15 : ℚ), (45 : ℚ))] 2 :=
  ⟨by decide,
    pick_top_idem_of_nonneg [((0 : ℚ), (10 : ℚ)), ((10 : ℚ), (15 : ℚ)), ((15 : ℚ), (45 : ℚ))] 2
      (by decide)⟩

/-! ## Claims about the duration probe and the render pipeline -/

/-- C8: the duration probe never propagates a fault. If the external
inspection raises (missing binary, unreadable file, failed process) the probe
returns the sentinel 0.0; if the inspection produced text that float() cannot
parse it also returns 0.0; and on success it returns the parsed value. -/
theorem probe_fault_yields_sentinel (raw : Except ProbeError String)
    (parse : String → Option ℚ) :
    (∀ e : ProbeError, raw = Except.error e → get_video_length_seconds raw parse = 0) ∧
    (∀ s : String, raw = Except.ok s → parse s.trim = none →
      get_video_length_seconds raw parse = 0) ∧
    (∀ (s : String) (v : ℚ), raw = Except.ok s → parse s.trim = some v →
      get_video_length_seconds raw parse = v) := by
  refine ⟨?_, ?_, ?_⟩
  · rintro e rfl
    rfl
  · rintro s rfl hp
    simp [get_video_length_seconds, hp]
  · rintro s v rfl hp
    simp [get_video_length_seconds, hp]

/-- C8 witness: a failed invocation returns 0 and a parse of 90 returns 90. -/
theorem probe_fault_yields_sentinel_witness :
    get_video_length_seconds (Except.error ProbeError.missingBinary) (fun _ => none) = 0 ∧
    get_video_length_seconds (Except.ok "90.0") (fun _ => some (90 : ℚ)) = 90 :=
  ⟨(probe_fault_yields_sentinel (Except.error ProbeError.missingBinary) (fun _ => none)).1
      ProbeError.missingBinary rfl,
    (probe_fault_yields_sentinel (Except.ok "90.0") (fun _ => some (90 : ℚ))).2.2
      "90.0" 90 rfl rfl⟩

theorem run_render_loop_fault (encoder : RenderJob → EncoderResult) (job : RenderJob)
    (rest : List RenderJob) :
    ∀ (pre : List RenderJob) (disk : List String),
      (∀ p ∈ pre, (encoder p).returncode = 0) → (encoder job).returncode ≠ 0 →
      run_render_loop encoder (pre ++ job :: rest) disk =
        Except.error (⟨(encoder job).returncode, (encoder job).stderr⟩,
          disk ++ pre.map (fun j => j.out_path)) := by
  intro pre
  induction pre with
  | nil =>
    intro disk _ hjob
    simp [run_render_loop, create_short, hjob]
  | cons p pre ih =>
    intro disk hpre hjob
    have hp : (encoder p).returncode = 0 := hpre p (List.mem_cons_self p pre)
    have hrest : ∀ q ∈ pre, (encoder q).returncode = 0 :=
      fun q hq => hpre q (List.mem_cons_of_mem p hq)
    have hcs : create_short encoder p = Except.ok () := by
      simp [create_short, hp]
    simp only [List.cons_append, run_render_loop, hcs, List.append_eq]
    rw [ih (disk ++ [p.out_path]) hrest hjob]
    simp

/-- C9: if the encoder invocation of some job exits with a non-zero status
(all jobs before it succeeding), the renderer raises a fault carrying the
captured stderr, and the orchestrator aborts: the loop over the whole queue
stops at that job, the output files of the earlier successful jobs are
exactly what remains on disk, and the remaining jobs are never run. -/
theorem render_fault_aborts_queue (encoder : RenderJob → EncoderResult)
    (pre : List RenderJob) (job : RenderJob) (rest : List RenderJob)
    (hpre : ∀ p ∈ pre, (encoder p).returncode = 0)
    (hjob : (encoder job).returncode ≠ 0) :
    create_short encoder job =
      Except.error ⟨(encoder job).returncode, (encoder job).stderr⟩ ∧
    run_render_loop encoder (pre ++ job :: rest) [] =
      Except.error (⟨(encoder job).returncode, (encoder job).stderr⟩,
        pre.map (fun j => j.out_path)) := by
  constructor
  · simp [create_short, hjob]
  · simpa using run_render_loop_fault encoder job rest pre [] hpre hjob

/-- C9 witness: three queued jobs; the second one's encoder exits with status
1 and stderr text; the loop surfaces that fault with only the first output on
disk, never running the third job. -/
theorem render_fault_aborts_queue_witness :
    (∀ p ∈ [RenderJob.mk "in.mp4" 0 30 "short_01.mp4"],
      ((fun j : RenderJob => if j.out_path = "short_02.mp4"
          then EncoderResult.mk 1 "boom" else EncoderResult.mk 0 "") p).returncode = 0) ∧
    ((fun j : RenderJob => if j.out_path = "short_02.mp4"
        then EncoderResult.mk 1 "boom" else EncoderResult.mk 0 "")
      (RenderJob.mk "in.mp4" 10 30 "short_02.mp4")).returncode ≠ 0 ∧
    run_render_loop
        (fun j : RenderJob => if j.out_path = "short_02.mp4"
          then EncoderResult.mk 1 "boom" else EncoderResult.mk 0 "")
        ([RenderJob.mk "in.mp4" 0 30 "short_01.mp4"] ++
          RenderJob.mk "in.mp4" 10 30 "short_02.mp4" ::
            [RenderJob.mk "in.mp4" 20 30 "short_03.mp4"]) [] =
      Except.error (⟨1, "boom"⟩, ["short_01.mp4"]) :=
  ⟨by decide, by decide,
    (render_fault_aborts_queue
        (fun j : RenderJob => if j.out_path = "short_02.mp4"
          then EncoderResult.mk 1 "boom" else EncoderResult.mk 0 "")
        [RenderJob.mk "in.mp4" 0 30 "short_01.mp4"]
        (RenderJob.mk "in.mp4" 10 30 "short_02.mp4")
        [RenderJob.mk "in.mp4" 20 30 "short_03.mp4"]
        (by decide) (by decide)).2⟩

theorem build_render_jobs_length (video : String) (chosen : List Scene) (short_dur : ℤ) :
    (build_render_jobs video chosen short_dur).length = chosen.length := by
  simp [build_render_jobs]

/-- C10: the i-th render job of the main loop has start offset int(sstart),
the truncation of the i-th selected interval's start, and duration equal to
the user-supplied clip length, independent of the interval's end; its
destination is the 1-indexed zero-padded numbered name. -/
theorem render_job_fields (video : String) (chosen : List Scene) (short_dur : ℤ)
    (i : ℕ) (h : i < chosen.length) :
    (build_render_jobs video chosen short_dur).get
        ⟨i, by rw [build_render_jobs_length]; exact h⟩ =
      { input_path := video, start := pyInt (chosen.get ⟨i, h⟩).1,
        duration := short_dur, out_path := short_out_name i } := by
  simp [build_render_jobs, List.get_eq_getElem, List.getElem_enum]

/-- C10 witness: a single selected interval (3.5, 9.5) with clip length 30
produces a job starting at 3 with duration 30. -/
theorem render_job_fields_witness :
    0 < ([(((7 : ℚ) / 2), ((19 : ℚ) / 2))] : List Scene).length ∧
    (build_render_jobs "video.mp4" [(((7 : ℚ) / 2), ((19 : ℚ) / 2))] 30).get
        ⟨0, by rw [build_render_jobs_length]; decide⟩ =
      { input_path := "video.mp4",
        start := pyInt (([(((7 : ℚ) / 2), ((19 : ℚ) / 2))] : List Scene).get ⟨0, by decide⟩).1,
        duration := 30, out_path := short_out_name 0 } :=
  ⟨by decide,
    render_job_fields "video.mp4" [(((7 : ℚ) / 2), ((19 : ℚ) / 2))] 30 0 (by decide)⟩

end VideoClipper
